/-
Verification of the Studien-Dashboard repository (src/services.py, src/models.py,
src/store.py, src/controller.py) against its natural-language specification.

The Python code is shallowly embedded:
  * Python `datetime.date` becomes `PyDate` (year/month/day with the validity
    invariant that the Python constructor enforces);
  * Python floats are modelled by exact rationals `ℚ`;
  * dynamically-typed configuration values become the inductive `Value`,
    with Python coercions `str`/`int`/`float` modelled as total/partial functions
    (`pyStr`, `pyInt`, `pyFloat`; a `none` result models a raised exception);
  * Python dicts with string keys become association lists (`Dict`) with
    first-match lookup;
  * a raised exception in `Modul.fuege_pruefung_hinzu` becomes `Except.error`.
-/
import Mathlib

namespace StudienDashboard

/-! ## Calendar dates (Python `datetime.date`) -/

/-- A calendar date, as carried by Python `datetime.date`. -/
structure PyDate where
  year : Nat
  month : Nat
  day : Nat
deriving DecidableEq, Repr

/-- Gregorian leap-year rule (used by Python's date validation). -/
def isLeapYear (y : Nat) : Bool :=
  (y % 4 == 0 && y % 100 != 0) || (y % 400 == 0)

/-- Number of days of month `m` in year `y`. -/
def daysInMonth (y m : Nat) : Nat :=
  if m = 2 then (if isLeapYear y then 29 else 28)
  else if m = 4 ∨ m = 6 ∨ m = 9 ∨ m = 11 then 30
  else 31

/-- The invariant every Python `datetime.date` object satisfies
(its constructor rejects anything else). -/
def PyDate.valid (d : PyDate) : Bool :=
  decide (1 ≤ d.year ∧ d.year ≤ 9999 ∧ 1 ≤ d.month ∧ d.month ≤ 12 ∧
    1 ≤ d.day ∧ d.day ≤ daysInMonth d.year d.month)

/-- The decimal digit character for `n` (`n < 10`; larger arguments are capped,
which formatting of valid dates never hits). -/
def digitOf (n : Nat) : Char :=
  match n with
  | 0 => '0' | 1 => '1' | 2 => '2' | 3 => '3' | 4 => '4'
  | 5 => '5' | 6 => '6' | 7 => '7' | 8 => '8' | _ => '9'

/-- Numeric value of a decimal digit character. -/
def dval (c : Char) : Nat := c.toNat - 48

/-- Two-digit zero-padded decimal rendering. -/
def pad2 (n : Nat) : List Char := [digitOf (n / 10 % 10), digitOf (n % 10)]

/-- Four-digit zero-padded decimal rendering. -/
def pad4 (n : Nat) : List Char :=
  [digitOf (n / 1000 % 10), digitOf (n / 100 % 10), digitOf (n / 10 % 10), digitOf (n % 10)]

/-- Python `date.isoformat()`: the string `YYYY-MM-DD`. -/
def PyDate.isoformat (d : PyDate) : String :=
  String.mk (pad4 d.year ++ '-' :: (pad2 d.month ++ '-' :: pad2 d.day))

/-- Date construction with Python's validation: `some` only for valid dates. -/
def mkValidDate (y m d : Nat) : Option PyDate :=
  if PyDate.valid ⟨y, m, d⟩ then some ⟨y, m, d⟩ else none

/-- Model of `datetime.fromisoformat(s).date()` on calendar-date strings:
parses `YYYY-MM-DD` and validates the date, `none` on any failure
(the raised `ValueError` in Python). -/
def parseIsoDate (s : String) : Option PyDate :=
  match s.data with
  | [y1, y2, y3, y4, h1, m1, m2, h2, d1, d2] =>
    if y1.isDigit ∧ y2.isDigit ∧ y3.isDigit ∧ y4.isDigit ∧ h1 = '-' ∧
        m1.isDigit ∧ m2.isDigit ∧ h2 = '-' ∧ d1.isDigit ∧ d2.isDigit then
      mkValidDate (1000 * dval y1 + 100 * dval y2 + 10 * dval y3 + dval y4)
        (10 * dval m1 + dval m2) (10 * dval d1 + dval d2)
    else none
  | _ => none

theorem daysInMonth_le (y m : Nat) : daysInMonth y m ≤ 31 := by
  unfold daysInMonth
  split_ifs <;> norm_num

theorem dval_digitOf (n : Nat) (h : n < 10) : dval (digitOf n) = n := by
  interval_cases n <;> rfl

theorem isDigit_digitOf (n : Nat) : (digitOf n).isDigit = true := by
  unfold digitOf
  rcases n with _|_|_|_|_|_|_|_|_|n <;> rfl

/-- Round-trip: parsing the ISO rendering of a valid date recovers the date. -/
theorem parseIsoDate_isoformat (d : PyDate) (h : d.valid = true) :
    parseIsoDate d.isoformat = some d := by
  obtain ⟨y, m, dd⟩ := d
  have hb := h
  simp only [PyDate.valid, decide_eq_true_eq] at hb
  obtain ⟨hy1, hy2, hm1, hm2, hd1, hd2⟩ := hb
  show parseIsoDate (String.mk (pad4 y ++ '-' :: (pad2 m ++ '-' :: pad2 dd))) = _
  simp only [parseIsoDate, pad4, pad2, List.cons_append, List.nil_append]
  rw [if_pos]
  · have ey : 1000 * dval (digitOf (y / 1000 % 10)) + 100 * dval (digitOf (y / 100 % 10)) +
        10 * dval (digitOf (y / 10 % 10)) + dval (digitOf (y % 10)) = y := by
      rw [dval_digitOf _ (Nat.mod_lt _ (by norm_num)),
        dval_digitOf _ (Nat.mod_lt _ (by norm_num)),
        dval_digitOf _ (Nat.mod_lt _ (by norm_num)),
        dval_digitOf _ (Nat.mod_lt _ (by norm_num))]
      omega
    have em : 10 * dval (digitOf (m / 10 % 10)) + dval (digitOf (m % 10)) = m := by
      rw [dval_digitOf _ (Nat.mod_lt _ (by norm_num)),
        dval_digitOf _ (Nat.mod_lt _ (by norm_num))]
      omega
    have hdd : dd ≤ 31 := le_trans hd2 (daysInMonth_le y m)
    have ed : 10 * dval (digitOf (dd / 10 % 10)) + dval (digitOf (dd % 10)) = dd := by
      rw [dval_digitOf _ (Nat.mod_lt _ (by norm_num)),
        dval_digitOf _ (Nat.mod_lt _ (by norm_num))]
      omega
    rw [ey, em, ed, mkValidDate, if_pos h]
  · simp [isDigit_digitOf]

/-- The parser only produces valid dates. -/
theorem parseIsoDate_valid (s : String) (d : PyDate) (h : parseIsoDate s = some d) :
    d.valid = true := by
  unfold parseIsoDate at h
  split at h
  · split at h
    · unfold mkValidDate at h
      split at h
      · cases h
        assumption
      · cases h
    · cases h
  · cases h

/-! ## Python values and coercions -/

/-- A dynamically-typed Python value as it occurs in the configuration dict:
a string, an int, a float (modelled exactly by `ℚ`), a `datetime.date`,
or `None` (also standing for any other non-coercible object). -/
inductive Value where
  | str (s : String)
  | int (n : Int)
  | float (q : ℚ)
  | date (d : PyDate)
  | none
deriving DecidableEq

/-- Python `str.strip()` on the character list: drop leading and trailing
whitespace. -/
def stripChars (l : List Char) : List Char :=
  List.rdropWhile Char.isWhitespace (List.dropWhile Char.isWhitespace l)

/-- Python `str.strip()`. -/
def pyStrip (s : String) : String := String.mk (stripChars s.data)

/-- Value of a list of decimal digit characters. -/
def natValOfDigits (l : List Char) : Nat := l.foldl (fun a c => 10 * a + dval c) 0

/-- A non-empty all-digit character list, as accepted inside `int(...)`. -/
def parseIntDigits (l : List Char) : Option Nat :=
  if l ≠ [] ∧ l.all Char.isDigit then some (natValOfDigits l) else none

/-- Python `int(s)` on a string: surrounding whitespace, optional sign,
then decimal digits; `none` models the raised `ValueError`. -/
def parseInt (s : String) : Option Int :=
  match stripChars s.data with
  | '-' :: rest => (parseIntDigits rest).map (fun n => -(n : Int))
  | '+' :: rest => (parseIntDigits rest).map (fun n => (n : Int))
  | l => (parseIntDigits l).map (fun n => (n : Int))

/-- An unsigned decimal literal `digits[.digits]` as accepted by `float(...)`
(the model covers the plain decimal forms; exponents and `inf`/`nan` are
outside the model and no claim exercises them). -/
def parseDecimal (l : List Char) : Option ℚ :=
  let ip := l.takeWhile Char.isDigit
  match l.dropWhile Char.isDigit with
  | [] => if ip = [] then none else some ((natValOfDigits ip : ℚ))
  | '.' :: fp =>
    if fp.all Char.isDigit ∧ (ip ≠ [] ∨ fp ≠ []) then
      some ((natValOfDigits ip : ℚ) + (natValOfDigits fp : ℚ) / (10 : ℚ) ^ fp.length)
    else none
  | _ => none

/-- Python `float(s)` on a string: surrounding whitespace, optional sign,
then an unsigned decimal literal. -/
def parseFloat (s : String) : Option ℚ :=
  match stripChars s.data with
  | '-' :: rest => (parseDecimal rest).map (fun q => -q)
  | '+' :: rest => parseDecimal rest
  | l => parseDecimal l

/-- Python `str(x)`.  (The rendering of ints/floats is a stand-in; no claim
depends on it — only `str` of an actual string, which is the identity.) -/
def pyStr (v : Value) : String :=
  match v with
  | .str s => s
  | .int n => toString n
  | .float q => toString q
  | .date d => d.isoformat
  | .none => "None"

/-- Python `int(x)`: `none` models the raised exception
(`int` of a date or of `None` raises `TypeError`; a malformed string raises
`ValueError`; a float truncates toward zero). -/
def pyInt (v : Value) : Option Int :=
  match v with
  | .int n => some n
  | .float q => some (Int.tdiv q.num (q.den : Int))
  | .str s => parseInt s
  | _ => none

/-- Python `float(x)`: `none` models the raised exception. -/
def pyFloat (v : Value) : Option ℚ :=
  match v with
  | .float q => some q
  | .int n => some ((n : ℚ))
  | .str s => parseFloat s
  | _ => none

/-- `str.strip()` is idempotent. -/
theorem stripChars_idem (l : List Char) : stripChars (stripChars l) = stripChars l := by
  unfold stripChars
  have h2 : List.dropWhile Char.isWhitespace
      (List.rdropWhile Char.isWhitespace (List.dropWhile Char.isWhitespace l)) =
      List.rdropWhile Char.isWhitespace (List.dropWhile Char.isWhitespace l) := by
    rcases eq_or_ne
      (List.rdropWhile Char.isWhitespace (List.dropWhile Char.isWhitespace l)) [] with he | he
    · rw [he]
      rfl
    · rw [List.dropWhile_eq_self_iff]
      intro hl
      have hpre : List.rdropWhile Char.isWhitespace (List.dropWhile Char.isWhitespace l) <+:
          List.dropWhile Char.isWhitespace l := List.rdropWhile_prefix _ _
      have hlen : 0 < (List.dropWhile Char.isWhitespace l).length :=
        lt_of_lt_of_le hl (List.IsPrefix.length_le hpre)
      have hget := List.IsPrefix.getElem hpre hl
      simp only [List.get_eq_getElem, hget]
      exact List.dropWhile_get_zero_not Char.isWhitespace l hlen
  rw [h2, List.rdropWhile_idempotent]

/-- `pyStrip` is idempotent. -/
theorem pyStrip_idem (s : String) : pyStrip (pyStrip s) = pyStrip s := by
  simp [pyStrip, stripChars_idem]

/-! ## Python dicts with string keys -/

/-- A Python dict with string keys, as an association list (first match wins). -/
abbrev Dict := List (String × Value)

/-- `d.get(k)` / `d[k]`: the value stored under `k`, if any. -/
def dget (d : Dict) (k : String) : Option Value :=
  match d with
  | [] => Option.none
  | (k2, v) :: rest => if k2 = k then some v else dget rest k

/-- `d.get(k, default)`. -/
def dgetD (d : Dict) (k : String) (dv : Value) : Value := (dget d k).getD dv

/-- `d[k] = v`: replace the entry for `k`, or append a fresh one. -/
def dset (d : Dict) (k : String) (v : Value) : Dict :=
  match d with
  | [] => [(k, v)]
  | (k2, v2) :: rest => if k2 = k then (k2, v) :: rest else (k2, v2) :: dset rest k v

/-- Every `datetime.date` object inside a value is valid — an invariant Python
guarantees by construction. -/
def valueDateValid : Value → Bool
  | .date d => d.valid
  | _ => true

/-- All date objects stored in a dict are valid. -/
def dictDatesValid (d : Dict) : Bool := d.all (fun kv => valueDateValid kv.2)

theorem dget_dset_same (d : Dict) (k : String) (v : Value) :
    dget (dset d k v) k = some v := by
  induction d with
  | nil => simp [dset, dget]
  | cons hd tl ih =>
    obtain ⟨k2, v2⟩ := hd
    by_cases hk : k2 = k
    · simp [dset, dget, hk]
    · simp [dset, dget, hk, ih]

theorem dget_dset_ne (d : Dict) (k k2 : String) (v : Value) (h : k ≠ k2) :
    dget (dset d k v) k2 = dget d k2 := by
  induction d with
  | nil => simp [dset, dget, h]
  | cons hd tl ih =>
    obtain ⟨k3, v3⟩ := hd
    by_cases hk : k3 = k
    · subst hk
      simp [dset, dget, h]
    · simp [dset, dget, hk, ih]

theorem dictDatesValid_dgetD (d : Dict) (k : String) (dv : Value)
    (hd : dictDatesValid d = true) (hdv : valueDateValid dv = true) :
    valueDateValid (dgetD d k dv) = true := by
  induction d with
  | nil => simpa [dgetD, dget] using hdv
  | cons hd2 tl ih =>
    obtain ⟨k2, v2⟩ := hd2
    simp only [dictDatesValid, List.all_cons, Bool.and_eq_true] at hd
    by_cases hk : k2 = k
    · simpa [dgetD, dget, hk] using hd.1
    · have hr := ih hd.2
      simpa [dgetD, dget, if_neg hk] using hr

/-! ## services.py -/

/-- Module-level constant `DURATION_MONTHS = 54`. -/
def DURATION_MONTHS : Int := 54

/-- Module-level constant `ECTS_MAX = 180`. -/
def ECTS_MAX : Int := 180

namespace ProgressService

/-- `ProgressService._clamp_int` for the numeric arguments the service receives
(its `int(x)` conversion cannot fail on an `int` argument). -/
def clamp_int (x lo hi : Int) : Int := max lo (min hi x)

/-- `ProgressService._clamp_float` for numeric arguments. -/
def clamp_float (x lo hi : ℚ) : ℚ := max lo (min hi x)

/-- `ProgressService.months_since`: months since the start of study,
from the year/month difference only, floored at 0. -/
def months_since (start today : PyDate) : Int :=
  max 0 (((today.year : Int) - (start.year : Int)) * 12 +
    ((today.month : Int) - (start.month : Int)))

/-- `ProgressService.progress_ist`. -/
def progress_ist (ects_done ects_total : Int) : ℚ :=
  let t := clamp_int ects_total 1 ECTS_MAX
  let d := clamp_int ects_done 0 t
  if t ≠ 0 then (d : ℚ) / (t : ℚ) else 0

/-- `ProgressService.progress_soll`. -/
def progress_soll (start today : PyDate) (duration_months : Int) : ℚ :=
  let dm := clamp_int duration_months 1 9999
  let m := months_since start today
  min ((m : ℚ) / (dm : ℚ)) 1

/-- `ProgressService.ampel`. -/
def ampel (ist soll : ℚ) (ects_total : Int) : String × String :=
  let i := clamp_float ist 0 1
  let s := clamp_float soll 0 1
  let t := clamp_int ects_total 1 ECTS_MAX
  let diff_ects := |(s - i) * (t : ℚ)|
  if i ≥ s then ("green", "im Plan")
  else if diff_ects ≤ 10 then ("yellow", "etwas hinten dran")
  else ("red", "deutlich verzögert")

end ProgressService

namespace GradeService

/-- `GradeService.is_ok`: `float(avg_grade)` with exception fallback `5.0`,
then comparison against the threshold. -/
def is_ok (avg_grade : Value) (threshold : ℚ) : Bool :=
  let g := (pyFloat avg_grade).getD 5
  decide (g ≤ threshold)

end GradeService

/-! ## models.py -/

/-- `ExamType`. -/
inductive ExamType where
  | klausur
  | workbook
  | projekt
deriving DecidableEq, Repr

/-- `ExamStatus`. -/
inductive ExamStatus where
  | bestanden
  | nicht_bestanden
deriving DecidableEq, Repr

/-- `Pruefungsleistung`: one exam attempt. -/
structure Pruefungsleistung where
  typ : ExamType
  datum : Option PyDate := Option.none
  status : Option ExamStatus := Option.none
  note : Option ℚ := Option.none
deriving DecidableEq, Repr

/-- `Pruefungsleistung.ist_bestanden`. -/
def Pruefungsleistung.ist_bestanden (p : Pruefungsleistung) : Bool :=
  p.status == some ExamStatus.bestanden

/-- `Modul`: a module with up to 3 exam attempts. -/
structure Modul where
  code : String
  titel : String
  ects : Int
  pruefungen : List Pruefungsleistung := []
deriving DecidableEq, Repr

/-- `Modul.fuege_pruefung_hinzu`: the raised `ValueError` becomes
`Except.error`; on success the attempt is appended. -/
def Modul.fuege_pruefung_hinzu (m : Modul) (p : Pruefungsleistung) :
    Except String Modul :=
  if m.pruefungen.length ≥ 3 then
    Except.error "Maximal 3 Prüfungsleistungen pro Modul erlaubt (0..3)."
  else
    Except.ok { m with pruefungen := m.pruefungen ++ [p] }

/-- `Modul.abgeschlossen`. -/
def Modul.abgeschlossen (m : Modul) : Bool :=
  m.pruefungen.any (fun p => p.ist_bestanden)

/-- `Semester`. -/
structure Semester where
  nummer : Int
  start : Option PyDate := Option.none
  ende : Option PyDate := Option.none
  module : List Modul := []
deriving DecidableEq, Repr

/-- `Semester.ects_abgeschlossen`: ECTS sum of the completed modules. -/
def Semester.ects_abgeschlossen (s : Semester) : Int :=
  ((s.module.filter (fun m => m.abgeschlossen)).map (fun m => m.ects)).sum

/-- `Studiengang`. -/
structure Studiengang where
  name : String
  ects_gesamt : Int
  start_datum : PyDate
  semester : List Semester := []
deriving DecidableEq, Repr

/-- `Studiengang.ects_ist`. -/
def Studiengang.ects_ist (sg : Studiengang) : Int :=
  (sg.semester.map (fun s => s.ects_abgeschlossen)).sum

/-- `Studiengang.ist_prozent`: note the source divides without clamping
when `ects_gesamt > 0`. -/
def Studiengang.ist_prozent (sg : Studiengang) : ℚ :=
  if sg.ects_gesamt ≤ 0 then 0 else (sg.ects_ist : ℚ) / (sg.ects_gesamt : ℚ)

/-! ## store.py (`JsonStore`) -/

namespace JsonStore

/-- `JsonStore._ALLOWED_KEYS` (a Python set; listed here in the insertion
order of `_defaults`, which is also the order `_sanitize` produces). -/
def ALLOWED_KEYS : List String :=
  ["program", "name", "ects_total", "ects_done", "start", "avg_grade"]

/-- `JsonStore._defaults`, parameterized by the current date that Python
reads from the clock. -/
def defaults (today : PyDate) : Dict :=
  [("program", Value.str ""), ("name", Value.str ""),
   ("ects_total", Value.int 180), ("ects_done", Value.int 0),
   ("start", Value.str today.isoformat), ("avg_grade", Value.float 3)]

/-- `JsonStore._clamp_int`: `int(x)` with exception fallback `lo`, then clamp. -/
def clamp_int (x : Value) (lo hi : Int) : Int :=
  max lo (min hi ((pyInt x).getD lo))

/-- `JsonStore._clamp_float`: `float(x)` with exception fallback `lo`, then clamp. -/
def clamp_float (x : Value) (lo hi : ℚ) : ℚ :=
  max lo (min hi ((pyFloat x).getD lo))

/-- `JsonStore._iso_or_today`. -/
def iso_or_today (today : PyDate) (x : Value) : String :=
  match x with
  | .date d => d.isoformat
  | .str s =>
    match parseIsoDate s with
    | some d => d.isoformat
    | Option.none => today.isoformat
  | _ => today.isoformat

/-- `JsonStore._sanitize`.  The `data.get(k, d[k])` defaults are the values
from `_defaults`, inlined. -/
def sanitize (today : PyDate) (data : Dict) : Dict :=
  let program := pyStrip (pyStr (dgetD data "program" (Value.str "")))
  let name := pyStrip (pyStr (dgetD data "name" (Value.str "")))
  let ects_total := clamp_int (dgetD data "ects_total" (Value.int 180)) 1 180
  let ects_done := clamp_int (dgetD data "ects_done" (Value.int 0)) 0 ects_total
  let start := iso_or_today today (dgetD data "start" (Value.str today.isoformat))
  let avg_grade := clamp_float (dgetD data "avg_grade" (Value.float 3)) 1 5
  [("program", Value.str program), ("name", Value.str name),
   ("ects_total", Value.int ects_total), ("ects_done", Value.int ects_done),
   ("start", Value.str start), ("avg_grade", Value.float avg_grade)]

/-- The possible states of the backing JSON file when `load` runs. -/
inductive FileState where
  | missingOrEmpty
  | unreadable
  | parsedNonDict
  | parsedDict (d : Dict)

/-- `JsonStore.load`. -/
def load (today : PyDate) (f : FileState) : Dict :=
  match f with
  | .missingOrEmpty => defaults today
  | .unreadable => defaults today
  | .parsedNonDict => sanitize today []
  | .parsedDict d => sanitize today d

/-- `JsonStore.save`: the dict that gets written to disk. -/
def save (today : PyDate) (cfg : Dict) : Dict := sanitize today cfg

end JsonStore

/-! ## controller.py (`DashboardController`) -/

namespace DashboardController

/-- `DashboardController._parse_date`. -/
def parse_date (val : Value) (fallback : PyDate) : PyDate :=
  match val with
  | .date d => d
  | .str s => (parseIsoDate s).getD fallback
  | _ => fallback

/-- `DashboardController._as_int`. -/
def as_int (val : Value) (lo hi : Int) : Int :=
  max lo (min hi ((pyInt val).getD lo))

/-- `DashboardController._as_float`. -/
def as_float (val : Value) (lo hi : ℚ) : ℚ :=
  max lo (min hi ((pyFloat val).getD lo))

/-- The dict returned by `compute_viewmodel`, as a record. -/
structure ViewModel where
  ects_total : Int
  ects_done : Int
  avg_grade : ℚ
  start : PyDate
  ist_pct : ℚ
  soll_pct : ℚ
  ampel_color : String
  ampel_label : String
  grade_ok : Bool
deriving DecidableEq, Repr

/-- `DashboardController.compute_viewmodel`. -/
def compute_viewmodel (cfg : Dict) (today : PyDate) : ViewModel :=
  let ects_total := as_int (dgetD cfg "ects_total" (Value.int 180)) 1 180
  let ects_done := as_int (dgetD cfg "ects_done" (Value.int 0)) 0 ects_total
  let avg_grade := as_float (dgetD cfg "avg_grade" (Value.float 3)) 1 5
  let start_dt := parse_date (dgetD cfg "start" Value.none) today
  let ist_pct := ProgressService.progress_ist ects_done ects_total
  let soll_pct := ProgressService.progress_soll start_dt today DURATION_MONTHS
  let cl := ProgressService.ampel ist_pct soll_pct ects_total
  let grade_ok := GradeService.is_ok (Value.float avg_grade) 3
  { ects_total := ects_total, ects_done := ects_done, avg_grade := avg_grade,
    start := start_dt, ist_pct := ist_pct, soll_pct := soll_pct,
    ampel_color := cl.1, ampel_label := cl.2, grade_ok := grade_ok }

/-- The `allowed` whitelist inside `update_cfg`. -/
def allowed : List String :=
  ["program", "name", "ects_total", "ects_done", "start", "avg_grade"]

/-- `DashboardController.update_cfg`: applies the whitelisted keyword
arguments to the configuration, then calls `store.save` once with the full
configuration.  The second component records the sequence of `save` calls. -/
def update_cfg (cfg : Dict) (kwargs : List (String × Value)) : Dict × List Dict :=
  let cfg2 := kwargs.foldl (fun c kv => if kv.1 ∈ allowed then dset c kv.1 kv.2 else c) cfg
  (cfg2, [cfg2])

end DashboardController

/-! ## Claims -/

/-- C1: `status` (= `ProgressService.ampel`) clamps both fractions to [0,1] and
`credits_total` to [1,180], computes `credit_gap = |expected - actual| * credits_total`,
and returns green/"im Plan" iff clamped actual ≥ clamped expected, otherwise
yellow/"etwas hinten dran" iff the gap is ≤ 10, otherwise red/"deutlich verzögert";
in particular equal fractions always give green. -/
theorem C1_ampel_spec (ist soll : ℚ) (ects_total : Int) :
    (ProgressService.ampel ist soll ects_total =
      if ProgressService.clamp_float soll 0 1 ≤ ProgressService.clamp_float ist 0 1 then
        ("green", "im Plan")
      else if |ProgressService.clamp_float soll 0 1 - ProgressService.clamp_float ist 0 1| *
          ((ProgressService.clamp_int ects_total 1 180 : Int) : ℚ) ≤ 10 then
        ("yellow", "etwas hinten dran")
      else ("red", "deutlich verzögert")) ∧
    (ist = soll → ProgressService.ampel ist soll ects_total = ("green", "im Plan")) := by
  constructor
  · have h1 : (1 : Int) ≤ ProgressService.clamp_int ects_total 1 ECTS_MAX := le_max_left _ _
    have ht0 : (0 : ℚ) ≤ ((ProgressService.clamp_int ects_total 1 ECTS_MAX : Int) : ℚ) := by
      exact_mod_cast le_trans zero_le_one h1
    simp only [ProgressService.ampel]
    rw [abs_mul, abs_of_nonneg ht0]
    rfl
  · intro h
    subst h
    simp only [ProgressService.ampel]
    rw [if_pos (le_refl _)]

/-- Witness for C1: equal fractions give green, at 0 and at 1. -/
theorem C1_ampel_spec_witness :
    ProgressService.ampel 0 0 180 = ("green", "im Plan") ∧
    ProgressService.ampel 1 1 180 = ("green", "im Plan") :=
  ⟨(C1_ampel_spec 0 0 180).2 rfl, (C1_ampel_spec 1 1 180).2 rfl⟩

/-- C2: for `credits_total` in [1,180] and `credits_done` in [0, credits_total],
`actual_progress` (= `progress_ist`) equals `credits_done / credits_total` exactly
(float arithmetic modelled by `ℚ`) and lies in [0,1]; for fixed total it is
monotone non-decreasing in `credits_done`. -/
theorem C2_progress_ist_spec :
    (∀ d t : Int, 1 ≤ t → t ≤ 180 → 0 ≤ d → d ≤ t →
      ProgressService.progress_ist d t = (d : ℚ) / (t : ℚ) ∧
      0 ≤ ProgressService.progress_ist d t ∧ ProgressService.progress_ist d t ≤ 1) ∧
    (∀ t d1 d2 : Int, d1 ≤ d2 →
      ProgressService.progress_ist d1 t ≤ ProgressService.progress_ist d2 t) := by
  constructor
  · intro d t ht1 ht2 hd1 hd2
    have hct : ProgressService.clamp_int t 1 ECTS_MAX = t := by
      simp only [ProgressService.clamp_int, ECTS_MAX]
      omega
    have hcd : ProgressService.clamp_int d 0 t = d := by
      simp only [ProgressService.clamp_int]
      omega
    have heq : ProgressService.progress_ist d t = (d : ℚ) / (t : ℚ) := by
      simp only [ProgressService.progress_ist, hct, hcd]
      rw [if_pos (by omega)]
    have htq : (0 : ℚ) < (t : ℚ) := by exact_mod_cast lt_of_lt_of_le zero_lt_one ht1
    refine ⟨heq, ?_, ?_⟩
    · rw [heq]
      exact div_nonneg (by exact_mod_cast hd1) (le_of_lt htq)
    · rw [heq, div_le_one htq]
      exact_mod_cast hd2
  · intro t d1 d2 h
    simp only [ProgressService.progress_ist]
    have ht' : (1 : Int) ≤ ProgressService.clamp_int t 1 ECTS_MAX := le_max_left _ _
    rw [if_pos (by omega), if_pos (by omega)]
    have hmono : ProgressService.clamp_int d1 0 (ProgressService.clamp_int t 1 ECTS_MAX) ≤
        ProgressService.clamp_int d2 0 (ProgressService.clamp_int t 1 ECTS_MAX) := by
      simp only [ProgressService.clamp_int]
      omega
    have htq : (0 : ℚ) < ((ProgressService.clamp_int t 1 ECTS_MAX : Int) : ℚ) := by
      exact_mod_cast lt_of_lt_of_le zero_lt_one ht'
    rw [div_le_div_iff_of_pos_right htq]
    exact_mod_cast hmono

/-- Witness for C2 at `credits_done = 90`, `credits_total = 180` and the
monotone pair 60 ≤ 90. -/
theorem C2_progress_ist_spec_witness :
    ProgressService.progress_ist 90 180 = (90 : ℚ) / 180 ∧
    ProgressService.progress_ist 60 180 ≤ ProgressService.progress_ist 90 180 :=
  ⟨(C2_progress_ist_spec.1 90 180 (by norm_num) (by norm_num) (by norm_num) (by norm_num)).1,
   C2_progress_ist_spec.2 180 60 90 (by norm_num)⟩

/-- C3: `expected_progress` (= `progress_soll`) clamps `duration_months` to
[1,9999], computes `months_since` as the year/month difference floored at 0
(the day of month is ignored), and returns `min(months_since / duration, 1)`,
hence the result always lies in [0,1]. -/
theorem C3_progress_soll_spec (start today : PyDate) (dm : Int) :
    ProgressService.progress_soll start today dm =
      min ((ProgressService.months_since start today : Int) /
        ((ProgressService.clamp_int dm 1 9999 : Int) : ℚ)) 1 ∧
    0 ≤ ProgressService.progress_soll start today dm ∧
    ProgressService.progress_soll start today dm ≤ 1 ∧
    0 ≤ ProgressService.months_since start today ∧
    (∀ d1 d2 : Nat,
      ProgressService.months_since ⟨start.year, start.month, d1⟩
        ⟨today.year, today.month, d2⟩ = ProgressService.months_since start today) := by
  have hdm : (1 : Int) ≤ ProgressService.clamp_int dm 1 9999 := le_max_left _ _
  have hdq : (0 : ℚ) < ((ProgressService.clamp_int dm 1 9999 : Int) : ℚ) := by
    exact_mod_cast lt_of_lt_of_le zero_lt_one hdm
  have hm : (0 : Int) ≤ ProgressService.months_since start today := le_max_left _ _
  refine ⟨rfl, ?_, ?_, hm, fun d1 d2 => rfl⟩
  · simp only [ProgressService.progress_soll]
    apply le_min
    · exact div_nonneg (by exact_mod_cast hm) (le_of_lt hdq)
    · norm_num
  · simp only [ProgressService.progress_soll]
    exact min_le_right _ _

/-- C4: `is_acceptable` (= `GradeService.is_ok`) never throws; it is true iff
the coerced value is ≤ 3.0, with conversion failure replaced by 5.0 first, so
malformed input yields false; it is true on [1,3] and false on (3,5],
including true at 3.0 and false at 3.01. -/
theorem C4_is_ok_spec :
    (∀ v : Value, GradeService.is_ok v 3 = decide ((pyFloat v).getD 5 ≤ 3)) ∧
    (∀ v : Value, pyFloat v = Option.none → GradeService.is_ok v 3 = false) ∧
    (∀ g : ℚ, 1 ≤ g → g ≤ 3 → GradeService.is_ok (Value.float g) 3 = true) ∧
    (∀ g : ℚ, 3 < g → g ≤ 5 → GradeService.is_ok (Value.float g) 3 = false) ∧
    GradeService.is_ok (Value.float 3) 3 = true ∧
    GradeService.is_ok (Value.float (301 / 100)) 3 = false := by
  refine ⟨fun v => rfl, ?_, ?_, ?_, by decide, ?_⟩
  · intro v h
    simp [GradeService.is_ok, h]
    norm_num
  · intro g h1 h2
    simp [GradeService.is_ok, pyFloat, h2]
  · intro g h1 h2
    simp [GradeService.is_ok, pyFloat]
    exact h1
  · simp [GradeService.is_ok, pyFloat]
    norm_num

/-- Witness for C4: a non-coercible value (`None`) is not acceptable, and a
numeric grade 2.0 is. -/
theorem C4_is_ok_spec_witness :
    GradeService.is_ok Value.none 3 = false ∧
    GradeService.is_ok (Value.float 2) 3 = true :=
  ⟨C4_is_ok_spec.2.1 Value.none rfl,
   C4_is_ok_spec.2.2.1 2 (by norm_num) (by norm_num)⟩

/-- C5: `Modul.fuege_pruefung_hinzu` appends the attempt exactly when the
module holds fewer than 3 attempts, and is a rejected operation
(`Except.error`, the raised `ValueError`) when it already holds 3 — in this
pure embedding the input module is returned unmodified inside no constructor,
so rejection leaves the attempt list unchanged; in particular attempts
1, 2, 3 succeed in sequence and a 4th fails. -/
theorem C5_fuege_pruefung_hinzu_spec :
    (∀ (m : Modul) (p : Pruefungsleistung), m.pruefungen.length < 3 →
      m.fuege_pruefung_hinzu p =
        Except.ok { m with pruefungen := m.pruefungen ++ [p] }) ∧
    (∀ (m : Modul) (p : Pruefungsleistung), 3 ≤ m.pruefungen.length →
      m.fuege_pruefung_hinzu p =
        Except.error "Maximal 3 Prüfungsleistungen pro Modul erlaubt (0..3).") ∧
    (∀ (m : Modul) (p1 p2 p3 p4 : Pruefungsleistung), m.pruefungen = [] →
      m.fuege_pruefung_hinzu p1 = Except.ok { m with pruefungen := [p1] } ∧
      Modul.fuege_pruefung_hinzu { m with pruefungen := [p1] } p2 =
        Except.ok { m with pruefungen := [p1, p2] } ∧
      Modul.fuege_pruefung_hinzu { m with pruefungen := [p1, p2] } p3 =
        Except.ok { m with pruefungen := [p1, p2, p3] } ∧
      Modul.fuege_pruefung_hinzu { m with pruefungen := [p1, p2, p3] } p4 =
        Except.error "Maximal 3 Prüfungsleistungen pro Modul erlaubt (0..3).") := by
  refine ⟨?_, ?_, ?_⟩
  · intro m p h
    simp [Modul.fuege_pruefung_hinzu, Nat.not_le.mpr h]
  · intro m p h
    simp [Modul.fuege_pruefung_hinzu, h]
  · intro m p1 p2 p3 p4 h
    refine ⟨?_, ?_, ?_, ?_⟩ <;> simp [Modul.fuege_pruefung_hinzu, h]

/-- Witness for C5: a concrete module accepts three attempts and rejects the
fourth. -/
theorem C5_fuege_pruefung_hinzu_spec_witness :
    Modul.fuege_pruefung_hinzu
      ⟨"DLBSE01", "Software Engineering", 5,
        [⟨ExamType.klausur, Option.none, Option.none, Option.none⟩,
         ⟨ExamType.workbook, Option.none, Option.none, Option.none⟩,
         ⟨ExamType.projekt, Option.none, Option.none, Option.none⟩]⟩
      ⟨ExamType.klausur, Option.none, Option.none, Option.none⟩ =
      Except.error "Maximal 3 Prüfungsleistungen pro Modul erlaubt (0..3)." ∧
    Modul.fuege_pruefung_hinzu
      ⟨"DLBSE01", "Software Engineering", 5, []⟩
      ⟨ExamType.klausur, Option.none, Option.none, Option.none⟩ =
      Except.ok ⟨"DLBSE01", "Software Engineering", 5,
        [⟨ExamType.klausur, Option.none, Option.none, Option.none⟩]⟩ :=
  ⟨C5_fuege_pruefung_hinzu_spec.2.1 _ _ (by norm_num),
   C5_fuege_pruefung_hinzu_spec.1 _ _ (by norm_num)⟩

/-- C6 counterexample: a program whose completed modules exceed the total
target.  `ist_prozent` returns 2, not a value clamped to [0,1], refuting the
claim that the derived progress fraction is clamped and never exceeds 1. -/
theorem C6_counterexample :
    Studiengang.ist_prozent
      ⟨"BSc", 10, ⟨2020, 1, 1⟩,
        [⟨1, Option.none, Option.none,
          [⟨"M1", "Mathe", 20,
            [⟨ExamType.klausur, Option.none, some ExamStatus.bestanden,
              Option.none⟩]⟩]⟩]⟩ = 2 ∧
    ¬ Studiengang.ist_prozent
      ⟨"BSc", 10, ⟨2020, 1, 1⟩,
        [⟨1, Option.none, Option.none,
          [⟨"M1", "Mathe", 20,
            [⟨ExamType.klausur, Option.none, some ExamStatus.bestanden,
              Option.none⟩]⟩]⟩]⟩ ≤ 1 := by
  have h : Studiengang.ist_prozent
      ⟨"BSc", 10, ⟨2020, 1, 1⟩,
        [⟨1, Option.none, Option.none,
          [⟨"M1", "Mathe", 20,
            [⟨ExamType.klausur, Option.none, some ExamStatus.bestanden,
              Option.none⟩]⟩]⟩]⟩ = 2 := by
    simp [Studiengang.ist_prozent, Studiengang.ects_ist, Semester.ects_abgeschlossen,
      Modul.abgeschlossen, Pruefungsleistung.ist_bestanden]
    norm_num
  refine ⟨h, ?_⟩
  rw [h]
  norm_num

/-- C6 amended: `ist_prozent` is 0 when `ects_gesamt ≤ 0` and otherwise the
unclamped quotient `ects_ist / ects_gesamt`; it lies in [0,1] only under the
additional assumption `0 ≤ ects_ist ≤ ects_gesamt` (it exceeds 1 when the
completed credits exceed the target). -/
theorem C6_ist_prozent_amended (sg : Studiengang) :
    (sg.ects_gesamt ≤ 0 → sg.ist_prozent = 0) ∧
    (0 < sg.ects_gesamt →
      sg.ist_prozent = (sg.ects_ist : ℚ) / (sg.ects_gesamt : ℚ)) ∧
    (0 < sg.ects_gesamt → 0 ≤ sg.ects_ist → sg.ects_ist ≤ sg.ects_gesamt →
      0 ≤ sg.ist_prozent ∧ sg.ist_prozent ≤ 1) := by
  have hif : ∀ h : 0 < sg.ects_gesamt,
      sg.ist_prozent = (sg.ects_ist : ℚ) / (sg.ects_gesamt : ℚ) := by
    intro h
    simp [Studiengang.ist_prozent, not_le.mpr h]
  refine ⟨?_, hif, ?_⟩
  · intro h
    simp [Studiengang.ist_prozent, h]
  · intro h h1 h2
    have hq : (0 : ℚ) < (sg.ects_gesamt : ℚ) := by exact_mod_cast h
    rw [hif h]
    constructor
    · exact div_nonneg (by exact_mod_cast h1) (le_of_lt hq)
    · rw [div_le_one hq]
      exact_mod_cast h2

/-- Witness for C6 (amended): a consistent program (90 of 180 ECTS completed)
has a progress fraction in [0,1]. -/
theorem C6_ist_prozent_amended_witness :
    0 ≤ Studiengang.ist_prozent
      ⟨"BSc", 180, ⟨2020, 1, 1⟩,
        [⟨1, Option.none, Option.none,
          [⟨"M1", "Mathe", 90,
            [⟨ExamType.klausur, Option.none, some ExamStatus.bestanden,
              Option.none⟩]⟩]⟩]⟩ ∧
    Studiengang.ist_prozent
      ⟨"BSc", 180, ⟨2020, 1, 1⟩,
        [⟨1, Option.none, Option.none,
          [⟨"M1", "Mathe", 90,
            [⟨ExamType.klausur, Option.none, some ExamStatus.bestanden,
              Option.none⟩]⟩]⟩]⟩ ≤ 1 :=
  (C6_ist_prozent_amended
    ⟨"BSc", 180, ⟨2020, 1, 1⟩,
      [⟨1, Option.none, Option.none,
        [⟨"M1", "Mathe", 90,
          [⟨ExamType.klausur, Option.none, some ExamStatus.bestanden,
            Option.none⟩]⟩]⟩]⟩).2.2 (by norm_num) (by decide) (by decide)

/-- Helper for C8: keys that never occur in the keyword arguments keep their
configuration entry through the update fold. -/
theorem update_foldl_not_in (cfg : Dict) (kwargs : List (String × Value)) (k : String)
    (h : ∀ v, (k, v) ∉ kwargs) :
    dget (kwargs.foldl
      (fun c kv => if kv.1 ∈ DashboardController.allowed then dset c kv.1 kv.2 else c)
      cfg) k = dget cfg k := by
  induction kwargs generalizing cfg with
  | nil => rfl
  | cons kv rest ih =>
    obtain ⟨k0, v0⟩ := kv
    have hk0 : k0 ≠ k := by
      intro he
      subst he
      exact h v0 (List.mem_cons_self _ _)
    have hrest : ∀ v, (k, v) ∉ rest := fun v hv => h v (List.mem_cons_of_mem _ hv)
    simp only [List.foldl_cons]
    rw [ih _ hrest]
    split_ifs with hall
    · exact dget_dset_ne cfg k0 k v0 hk0
    · rfl

/-- Helper for C8: keys outside the whitelist keep their configuration entry
through the update fold. -/
theorem update_foldl_not_allowed (cfg : Dict) (kwargs : List (String × Value)) (k : String)
    (h : k ∉ DashboardController.allowed) :
    dget (kwargs.foldl
      (fun c kv => if kv.1 ∈ DashboardController.allowed then dset c kv.1 kv.2 else c)
      cfg) k = dget cfg k := by
  induction kwargs generalizing cfg with
  | nil => rfl
  | cons kv rest ih =>
    obtain ⟨k0, v0⟩ := kv
    simp only [List.foldl_cons]
    rw [ih _]
    split_ifs with hall
    · have hk0 : k0 ≠ k := by
        intro he
        subst he
        exact h hall
      exact dget_dset_ne cfg k0 k v0 hk0
    · rfl

/-- Helper for C8: a whitelisted keyword argument ends up stored under its key
(assuming, as Python guarantees for `**kwargs`, that keys are not repeated). -/
theorem update_foldl_mem (cfg : Dict) (kwargs : List (String × Value)) (k : String)
    (v : Value) :
    (kwargs.map Prod.fst).Nodup → (k, v) ∈ kwargs →
    k ∈ DashboardController.allowed →
    dget (kwargs.foldl
      (fun c kv => if kv.1 ∈ DashboardController.allowed then dset c kv.1 kv.2 else c)
      cfg) k = some v := by
  induction kwargs generalizing cfg with
  | nil =>
    intro _ hmem _
    cases hmem
  | cons kv rest ih =>
    intro hnd hmem hall
    obtain ⟨k0, v0⟩ := kv
    simp only [List.map_cons, List.nodup_cons] at hnd
    rcases List.mem_cons.mp hmem with heq | hmemr
    · obtain ⟨hk, hv⟩ := Prod.mk.inj heq
      subst hk
      subst hv
      have hrest : ∀ w, (k, w) ∉ rest := by
        intro w hw
        exact hnd.1 (List.mem_map.mpr ⟨(k, w), hw, rfl⟩)
      simp only [List.foldl_cons, if_pos hall]
      rw [update_foldl_not_in _ _ _ hrest]
      exact dget_dset_same cfg k v
    · simp only [List.foldl_cons]
      exact ih _ hnd.2 hmemr hall

/-- C8: `update_cfg` silently drops every field outside the whitelist
{program, name, ects_total, ects_done, start, avg_grade}, leaving all
configuration entries unchanged; every whitelisted field is set to the
provided value; afterwards the full configuration is handed to the store's
`save` exactly once. -/
theorem C8_update_cfg_spec (cfg : Dict) (kwargs : List (String × Value)) :
    ((DashboardController.update_cfg cfg kwargs).2 =
      [(DashboardController.update_cfg cfg kwargs).1]) ∧
    (∀ k, k ∉ DashboardController.allowed →
      dget (DashboardController.update_cfg cfg kwargs).1 k = dget cfg k) ∧
    ((kwargs.map Prod.fst).Nodup → ∀ k v, (k, v) ∈ kwargs →
      k ∈ DashboardController.allowed →
      dget (DashboardController.update_cfg cfg kwargs).1 k = some v) ∧
    (∀ k, (∀ v, (k, v) ∉ kwargs) →
      dget (DashboardController.update_cfg cfg kwargs).1 k = dget cfg k) := by
  refine ⟨rfl, ?_, ?_, ?_⟩
  · intro k hk
    exact update_foldl_not_allowed cfg kwargs k hk
  · intro hnd k v hmem hall
    exact update_foldl_mem cfg kwargs k v hnd hmem hall
  · intro k hk
    exact update_foldl_not_in cfg kwargs k hk

/-- Witness for C8: an unrecognized field (`hacker`) is dropped without
touching the config, a recognized one (`name`) is applied, and `save` is
called exactly once with the full configuration. -/
theorem C8_update_cfg_spec_witness :
    ((DashboardController.update_cfg [("program", Value.str "AI")]
      [("hacker", Value.int 1), ("name", Value.str "Rene")]).2 =
      [(DashboardController.update_cfg [("program", Value.str "AI")]
        [("hacker", Value.int 1), ("name", Value.str "Rene")]).1]) ∧
    dget (DashboardController.update_cfg [("program", Value.str "AI")]
      [("hacker", Value.int 1), ("name", Value.str "Rene")]).1 "hacker" =
      dget [("program", Value.str "AI")] "hacker" ∧
    dget (DashboardController.update_cfg [("program", Value.str "AI")]
      [("hacker", Value.int 1), ("name", Value.str "Rene")]).1 "name" =
      some (Value.str "Rene") :=
  ⟨(C8_update_cfg_spec [("program", Value.str "AI")]
      [("hacker", Value.int 1), ("name", Value.str "Rene")]).1,
   (C8_update_cfg_spec [("program", Value.str "AI")]
      [("hacker", Value.int 1), ("name", Value.str "Rene")]).2.1 "hacker" (by decide),
   (C8_update_cfg_spec [("program", Value.str "AI")]
      [("hacker", Value.int 1), ("name", Value.str "Rene")]).2.2.1 (by decide)
      "name" (Value.str "Rene") (by decide) (by decide)⟩

/-- C9: the controller's date resolution is total: a native date is returned
as-is, a string is parsed as an ISO calendar date, and any parse failure or
other type falls back to `today`; `compute_viewmodel` resolves `start`
exactly this way. -/
theorem C9_parse_date_spec (val : Value) (fallback : PyDate) :
    (∀ d, val = Value.date d → DashboardController.parse_date val fallback = d) ∧
    (∀ s d, val = Value.str s → parseIsoDate s = some d →
      DashboardController.parse_date val fallback = d) ∧
    (∀ s, val = Value.str s → parseIsoDate s = Option.none →
      DashboardController.parse_date val fallback = fallback) ∧
    ((∀ d, val ≠ Value.date d) → (∀ s, val ≠ Value.str s) →
      DashboardController.parse_date val fallback = fallback) ∧
    (∀ cfg today, (DashboardController.compute_viewmodel cfg today).start =
      DashboardController.parse_date (dgetD cfg "start" Value.none) today) := by
  refine ⟨?_, ?_, ?_, ?_, fun cfg today => rfl⟩
  · intro d h
    subst h
    rfl
  · intro s d h hp
    subst h
    simp [DashboardController.parse_date, hp]
  · intro s h hp
    subst h
    simp [DashboardController.parse_date, hp]
  · intro h1 h2
    cases val with
    | str s => exact absurd rfl (h2 s)
    | int n => rfl
    | float q => rfl
    | date d => exact absurd rfl (h1 d)
    | none => rfl

/-- Witness for C9: a native date passes through, a valid ISO string parses,
an invalid calendar date ("2024-02-30") and a non-date value fall back. -/
theorem C9_parse_date_spec_witness :
    DashboardController.parse_date (Value.date ⟨2024, 5, 17⟩) ⟨2025, 1, 1⟩ = ⟨2024, 5, 17⟩ ∧
    DashboardController.parse_date (Value.str "2024-05-17") ⟨2025, 1, 1⟩ = ⟨2024, 5, 17⟩ ∧
    DashboardController.parse_date (Value.str "2024-02-30") ⟨2025, 1, 1⟩ = ⟨2025, 1, 1⟩ ∧
    DashboardController.parse_date Value.none ⟨2025, 1, 1⟩ = ⟨2025, 1, 1⟩ :=
  ⟨(C9_parse_date_spec (Value.date ⟨2024, 5, 17⟩) ⟨2025, 1, 1⟩).1 ⟨2024, 5, 17⟩ rfl,
   (C9_parse_date_spec (Value.str "2024-05-17") ⟨2025, 1, 1⟩).2.1 "2024-05-17"
     ⟨2024, 5, 17⟩ rfl (by decide),
   (C9_parse_date_spec (Value.str "2024-02-30") ⟨2025, 1, 1⟩).2.2.1 "2024-02-30"
     rfl (by decide),
   (C9_parse_date_spec Value.none ⟨2025, 1, 1⟩).2.2.2.1
     (fun d h => Value.noConfusion h) (fun s h => Value.noConfusion h)⟩

/-- C10: when the stored average grade fails numeric coercion,
`compute_viewmodel` substitutes the lower bound 1.0 and reports
`grade_ok = true`, the opposite of `GradeService.is_ok`'s stand-alone policy
(which substitutes 5.0 and reports false). -/
theorem C10_malformed_avg_grade (cfg : Dict) (today : PyDate)
    (h : pyFloat (dgetD cfg "avg_grade" (Value.float 3)) = Option.none) :
    (DashboardController.compute_viewmodel cfg today).avg_grade = 1 ∧
    (DashboardController.compute_viewmodel cfg today).grade_ok = true ∧
    GradeService.is_ok (dgetD cfg "avg_grade" (Value.float 3)) 3 = false := by
  have havg : DashboardController.as_float (dgetD cfg "avg_grade" (Value.float 3)) 1 5 = 1 := by
    norm_num [DashboardController.as_float, h]
  refine ⟨?_, ?_, ?_⟩
  · simp [DashboardController.compute_viewmodel, havg]
  · norm_num [DashboardController.compute_viewmodel, havg, GradeService.is_ok, pyFloat]
  · simp [GradeService.is_ok, h]
    norm_num

/-- Witness for C10: a stored `None` average grade yields `avg_grade = 1.0`
and `grade_ok = true` in the view-model, while the grade service alone
rejects it. -/
theorem C10_malformed_avg_grade_witness :
    (DashboardController.compute_viewmodel [("avg_grade", Value.none)] ⟨2025, 6, 1⟩).avg_grade = 1 ∧
    (DashboardController.compute_viewmodel [("avg_grade", Value.none)] ⟨2025, 6, 1⟩).grade_ok = true ∧
    GradeService.is_ok (dgetD [("avg_grade", Value.none)] "avg_grade" (Value.float 3)) 3 = false :=
  C10_malformed_avg_grade [("avg_grade", Value.none)] ⟨2025, 6, 1⟩ rfl

/-- Helper for C7: `_iso_or_today` always returns the ISO rendering of some
valid date (given that any date object handed in is valid, as Python
guarantees). -/
theorem iso_or_today_spec (today : PyDate) (v : Value) (htoday : today.valid = true)
    (hv : valueDateValid v = true) :
    ∃ dd : PyDate, dd.valid = true ∧ JsonStore.iso_or_today today v = dd.isoformat := by
  cases v with
  | str s =>
    cases hp : parseIsoDate s with
    | some d =>
      refine ⟨d, parseIsoDate_valid s d hp, ?_⟩
      simp only [JsonStore.iso_or_today, hp]
    | none =>
      refine ⟨today, htoday, ?_⟩
      simp only [JsonStore.iso_or_today, hp]
  | date d =>
    refine ⟨d, ?_, rfl⟩
    simpa [valueDateValid] using hv
  | int n => exact ⟨today, htoday, rfl⟩
  | float q => exact ⟨today, htoday, rfl⟩
  | none => exact ⟨today, htoday, rfl⟩

/-- Helper for C7: `_sanitize` is the identity on a dict that is already in
sanitized shape (stripped strings, in-range numbers, ISO start date). -/
theorem sanitize_of_sanitized (today : PyDate) (P N : String) (T D : Int) (St : String)
    (A : ℚ) (hP : pyStrip P = P) (hN : pyStrip N = N) (hT1 : 1 ≤ T) (hT2 : T ≤ 180)
    (hD1 : 0 ≤ D) (hD2 : D ≤ T) (hA1 : 1 ≤ A) (hA2 : A ≤ 5)
    (hSt : ∃ dd : PyDate, dd.valid = true ∧ St = dd.isoformat) :
    JsonStore.sanitize today
      [("program", Value.str P), ("name", Value.str N), ("ects_total", Value.int T),
       ("ects_done", Value.int D), ("start", Value.str St), ("avg_grade", Value.float A)] =
      [("program", Value.str P), ("name", Value.str N), ("ects_total", Value.int T),
       ("ects_done", Value.int D), ("start", Value.str St), ("avg_grade", Value.float A)] := by
  obtain ⟨dd, hv, rfl⟩ := hSt
  have c1 : pyStrip (pyStr (Value.str P)) = P := hP
  have c2 : pyStrip (pyStr (Value.str N)) = N := hN
  have cT : JsonStore.clamp_int (Value.int T) 1 180 = T := by
    show max 1 (min 180 T) = T
    omega
  have cD : JsonStore.clamp_int (Value.int D) 0 T = D := by
    show max 0 (min T D) = D
    omega
  have cSt : JsonStore.iso_or_today today (Value.str dd.isoformat) = dd.isoformat := by
    simp only [JsonStore.iso_or_today, parseIsoDate_isoformat dd hv]
  have cA : JsonStore.clamp_float (Value.float A) 1 5 = A := by
    show max 1 (min 5 A) = A
    rw [min_eq_right hA2, max_eq_right hA1]
  show [("program", Value.str (pyStrip (pyStr (Value.str P)))),
      ("name", Value.str (pyStrip (pyStr (Value.str N)))),
      ("ects_total", Value.int (JsonStore.clamp_int (Value.int T) 1 180)),
      ("ects_done", Value.int (JsonStore.clamp_int (Value.int D) 0
        (JsonStore.clamp_int (Value.int T) 1 180))),
      ("start", Value.str (JsonStore.iso_or_today today (Value.str dd.isoformat))),
      ("avg_grade", Value.float (JsonStore.clamp_float (Value.float A) 1 5))] = _
  rw [c1, c2, cT, cD, cSt, cA]

/-- C7: `_sanitize` is idempotent (under the Python-guaranteed invariants
that the clock date and any stored date objects are valid calendar dates),
its output carries exactly the six whitelisted keys, sanitizing the default
configuration is the identity, and consequently `save` applied to any `load`
result reproduces it bit-for-bit. -/
theorem C7_sanitize_idempotent (today : PyDate) (d : Dict)
    (htoday : today.valid = true) (hdates : dictDatesValid d = true) :
    JsonStore.sanitize today (JsonStore.sanitize today d) = JsonStore.sanitize today d ∧
    (JsonStore.sanitize today d).map Prod.fst = JsonStore.ALLOWED_KEYS ∧
    JsonStore.sanitize today (JsonStore.defaults today) = JsonStore.defaults today ∧
    JsonStore.save today (JsonStore.load today (JsonStore.FileState.parsedDict d)) =
      JsonStore.load today (JsonStore.FileState.parsedDict d) ∧
    JsonStore.save today (JsonStore.load today JsonStore.FileState.missingOrEmpty) =
      JsonStore.load today JsonStore.FileState.missingOrEmpty := by
  have hvstart : valueDateValid (dgetD d "start" (Value.str today.isoformat)) = true :=
    dictDatesValid_dgetD d "start" (Value.str today.isoformat) hdates rfl
  have hSt := iso_or_today_spec today (dgetD d "start" (Value.str today.isoformat))
    htoday hvstart
  have hform : JsonStore.sanitize today d =
      [("program", Value.str (pyStrip (pyStr (dgetD d "program" (Value.str ""))))),
       ("name", Value.str (pyStrip (pyStr (dgetD d "name" (Value.str ""))))),
       ("ects_total", Value.int
         (JsonStore.clamp_int (dgetD d "ects_total" (Value.int 180)) 1 180)),
       ("ects_done", Value.int
         (JsonStore.clamp_int (dgetD d "ects_done" (Value.int 0)) 0
           (JsonStore.clamp_int (dgetD d "ects_total" (Value.int 180)) 1 180))),
       ("start", Value.str
         (JsonStore.iso_or_today today (dgetD d "start" (Value.str today.isoformat)))),
       ("avg_grade", Value.float
         (JsonStore.clamp_float (dgetD d "avg_grade" (Value.float 3)) 1 5))] := rfl
  have hT1 : (1 : Int) ≤ JsonStore.clamp_int (dgetD d "ects_total" (Value.int 180)) 1 180 :=
    le_max_left _ _
  have hmain : JsonStore.sanitize today (JsonStore.sanitize today d) =
      JsonStore.sanitize today d := by
    rw [hform]
    exact sanitize_of_sanitized today _ _ _ _ _ _
      (pyStrip_idem _) (pyStrip_idem _)
      hT1
      (max_le (by norm_num) (min_le_left _ _))
      (le_max_left _ _)
      (max_le (le_trans zero_le_one hT1) (min_le_left _ _))
      (le_max_left _ _)
      (max_le (by norm_num) (min_le_left _ _))
      hSt
  have hdft : JsonStore.sanitize today (JsonStore.defaults today) =
      JsonStore.defaults today := by
    exact sanitize_of_sanitized today "" "" 180 0 today.isoformat 3
      rfl rfl (by norm_num) (by norm_num) (by norm_num) (by norm_num)
      (by norm_num) (by norm_num) ⟨today, htoday, rfl⟩
  exact ⟨hmain, rfl, hdft, hmain, hdft⟩

/-- Witness for C7 at a concrete clock date and a concrete raw mapping with
an unknown key and out-of-range values. -/
theorem C7_sanitize_idempotent_witness :
    JsonStore.sanitize ⟨2025, 3, 10⟩
      (JsonStore.sanitize ⟨2025, 3, 10⟩
        [("ects_done", Value.int 500), ("junk", Value.str "x")]) =
      JsonStore.sanitize ⟨2025, 3, 10⟩
        [("ects_done", Value.int 500), ("junk", Value.str "x")] ∧
    (JsonStore.sanitize ⟨2025, 3, 10⟩
      [("ects_done", Value.int 500), ("junk", Value.str "x")]).map Prod.fst =
      JsonStore.ALLOWED_KEYS ∧
    JsonStore.sanitize ⟨2025, 3, 10⟩ (JsonStore.defaults ⟨2025, 3, 10⟩) =
      JsonStore.defaults ⟨2025, 3, 10⟩ ∧
    JsonStore.save ⟨2025, 3, 10⟩ (JsonStore.load ⟨2025, 3, 10⟩
      (JsonStore.FileState.parsedDict [("ects_done", Value.int 500), ("junk", Value.str "x")])) =
      JsonStore.load ⟨2025, 3, 10⟩
        (JsonStore.FileState.parsedDict [("ects_done", Value.int 500), ("junk", Value.str "x")]) ∧
    JsonStore.save ⟨2025, 3, 10⟩ (JsonStore.load ⟨2025, 3, 10⟩
      JsonStore.FileState.missingOrEmpty) =
      JsonStore.load ⟨2025, 3, 10⟩ JsonStore.FileState.missingOrEmpty :=
  C7_sanitize_idempotent ⟨2025, 3, 10⟩
    [("ects_done", Value.int 500), ("junk", Value.str "x")] (by decide) (by decide)

end StudienDashboard
